import Mathlib

/-!
Verification of the wildmap/utility core against its specification.

The definitions below are a shallow embedding of the Go sources:

* `timermgr` dispatcher (hierarchical timing wheel) — `Dispatcher.doOp`,
  `Dispatcher.place`, `Dispatcher.trigger`, `Dispatcher.delete`,
  `Dispatcher.Stop`, `Dispatcher.CancelTimer`, `Dispatcher.NewTimer`,
  `Dispatcher.UpdateTimer` and the `run` loop, modelled as a step relation
  over an explicit state.
* `timermgr` manager — `TimerMgr.timerCommonCb`, `TimerMgr.newTimer`,
  `TimerMgr.NewTimer`, `TimerMgr.NewTicker`, `TimerMgr.AccTimer`.
* `app` lifecycle — `App.start`, `App.stop`, `App.shutdownModule`.
* `chanrpc` — `CallInfo.Ret`, `CallInfo.RetWithError`, `Client.Call`,
  `Client.call`.

Go `int64` values are modelled as `Int`; maps are modelled as association
lists keyed by id; channels are modelled by an occupancy counter plus a
cumulative delivery log; callbacks are modelled by their presence (the
dispatcher only ever tests `cb != nil`).
-/

/-! ## Timer dispatcher (src `timermgr` dispatcher file) -/

/-- Go const `timerTick = 4`: minimal granularity in ms. -/
def timerTick : Int := 4

/-- Go const `timerLevel = 28`: number of wheel levels. -/
def timerLevel : Nat := 28

/-- Go struct `dispatcherTimer`.  The callback `cb` is modelled by its
presence only (`hasCb`): the dispatcher decides between CREATE and UPDATE
ops by testing `cb != nil`, never calling it on the op path. -/
structure DispatcherTimer where
  id : Int
  endTs : Int
  hasCb : Bool
deriving DecidableEq, Repr

/-- State of one `Dispatcher`:
`slots` is the timing wheel (`timerSlots`, one id-keyed list per level),
`cancelled` models the `canceledTimers` set, `opQueue` the `chanOp`
channel contents, `chanLen`/`chanCap` the current occupancy and capacity
of the outbound `ChanTimer` channel, `firedLog` the cumulative list of
timer ids ever delivered on `ChanTimer`, `lastTick` the tick counter of
the run loop, and `stopped` whether the run loop has returned. -/
structure DispState where
  slots : List (List DispatcherTimer)
  cancelled : List Int
  opQueue : List DispatcherTimer
  chanLen : Nat
  chanCap : Nat
  firedLog : List Int
  lastTick : Int
  stopped : Bool
deriving DecidableEq, Repr

/-- Insert (or overwrite, as a Go map assignment does) a timer into one
level's id-keyed slot map. -/
def slotInsert (l : List DispatcherTimer) (t : DispatcherTimer) : List DispatcherTimer :=
  t :: l.filter (fun u => u.id != t.id)

/-- Remove a timer id from one level's slot map (Go `delete(slotMap, k)`). -/
def slotErase (l : List DispatcherTimer) (id : Int) : List DispatcherTimer :=
  l.filter (fun u => u.id != id)

/-- Go map lookup in one level. -/
def slotFind (l : List DispatcherTimer) (id : Int) : Option DispatcherTimer :=
  l.find? (fun u => u.id == id)

/-- Go `canceledTimers.Store(id, ...)`: add to the cancelled-id set. -/
def addCancel (c : List Int) (id : Int) : List Int :=
  if id ∈ c then c else id :: c

/-- Go `canceledTimers.Delete(id)`: remove from the cancelled-id set. -/
def eraseCancel (c : List Int) (id : Int) : List Int :=
  c.filter (fun j => j != id)

/-- Go `Dispatcher.delete`: scan levels from `timerLevel-1` down to 0, remove
and return the first timer found with this id; in every exit path the
cancel mark for the id is also removed (`canceledTimers.Delete`).  The
helper recursion walks the list of level indices high-to-low. -/
def dispDeleteGo (s : DispState) (id : Int) : List Nat → DispState × Option DispatcherTimer
  | [] => ({ s with cancelled := eraseCancel s.cancelled id }, none)
  | i :: rest =>
    match slotFind (s.slots.getD i []) id with
    | some v =>
      ({ s with slots := s.slots.set i (slotErase (s.slots.getD i []) id),
                cancelled := eraseCancel s.cancelled id }, some v)
    | none => dispDeleteGo s id rest

/-- Go `Dispatcher.delete` over all levels `timerLevel-1 .. 0`. -/
def dispDelete (s : DispState) (id : Int) : DispState × Option DispatcherTimer :=
  dispDeleteGo s id (List.range timerLevel).reverse

/-- First wheel level `i` with `diff <= timerTick << i` (the placement
loop of `Dispatcher.place`); `none` when the duration exceeds the top
level, in which case the Go loop stores the timer nowhere. -/
def findLevel (diff : Int) : Option Nat :=
  (List.range timerLevel).find? (fun i => diff ≤ timerTick * 2 ^ i)

/-- Go `Dispatcher.place`: drop a cancelled id; deliver immediately
(non-blocking) when already due, dropping the timer entirely when the
outbound channel is full; otherwise store it at the first fitting level. -/
def place (now : Int) (s : DispState) (t : DispatcherTimer) : DispState :=
  if t.id ∈ s.cancelled then s
  else
    let diff := t.endTs - now
    if diff ≤ 0 then
      if s.chanLen < s.chanCap then
        { s with chanLen := s.chanLen + 1, firedLog := s.firedLog ++ [t.id] }
      else s
    else
      let d := if diff < timerTick then timerTick else diff
      match findLevel d with
      | some i => { s with slots := s.slots.set i (slotInsert (s.slots.getD i []) t) }
      | none => s

/-- The op sent by `Dispatcher.Stop()`: `&dispatcherTimer«id: 0, endTs: 0»`
(nil callback). -/
def stopSentinel : DispatcherTimer := { id := 0, endTs := 0, hasCb := false }

/-- Go `Dispatcher.doOp`.  Returns the updated state and the Go boolean
(`true` = keep running, `false` = exit the run loop).  The branch order
follows the source exactly: cancel (`endTs == 0`) first, then the
cancelled-set check, then stop (`id == 0`), then create (`cb != nil`),
then update. -/
def doOp (now : Int) (s : DispState) (t : DispatcherTimer) : DispState × Bool :=
  if t.endTs = 0 then
    let s1 := { s with cancelled := addCancel s.cancelled t.id }
    ((dispDelete s1 t.id).1, true)
  else if t.id ∈ s.cancelled then (s, true)
  else if t.id = 0 then (s, false)
  else if t.hasCb then
    let s1 := { s with cancelled := eraseCancel s.cancelled t.id }
    (place now s1 t, true)
  else
    let r := dispDelete s t.id
    match r.2 with
    | some oldt => (place now r.1 { oldt with endTs := t.endTs }, true)
    | none => (r.1, true)

/-- One entry's processing inside `Dispatcher.trigger`'s `range` loop:
drop (and unmark) a cancelled id; otherwise, when the remaining time is
below the level's span, cascade to the level below (level > 0) or, at
level 0 with the deadline reached, attempt a non-blocking delivery,
removing the timer only when the send succeeds. -/
def triggerStep (nowMs : Int) (level : Nat) (s : DispState) (t : DispatcherTimer) : DispState :=
  if t.id ∈ s.cancelled then
    { s with slots := s.slots.set level (slotErase (s.slots.getD level []) t.id),
             cancelled := eraseCancel s.cancelled t.id }
  else if t.endTs - nowMs < 2 ^ level * timerTick then
    if level ≠ 0 then
      let sl := s.slots.set (level - 1) (slotInsert (s.slots.getD (level - 1) []) t)
      { s with slots := sl.set level (slotErase (sl.getD level []) t.id) }
    else if nowMs ≥ t.endTs then
      if s.chanLen < s.chanCap then
        { s with chanLen := s.chanLen + 1, firedLog := s.firedLog ++ [t.id],
                 slots := s.slots.set 0 (slotErase (s.slots.getD 0 []) t.id) }
      else s
    else s
  else s

/-- Go `Dispatcher.trigger`: fold the entry processing over the snapshot of
the level's slot map. -/
def trigger (nowMs : Int) (level : Nat) (s : DispState) : DispState :=
  (s.slots.getD level []).foldl (triggerStep nowMs level) s

/-- One iteration of the `doTick` catch-up loop: advance `lastTick`, then
walk levels high-to-low and trigger each level whose mask test
`lastTick & ((1<<i)-1) == 0` passes (stated as `lastTick % 2^i = 0`,
which agrees with the Go mask test on the nonnegative tick counters the
code produces). -/
def tickOnce (nowMs : Int) (s : DispState) : DispState :=
  let lt := s.lastTick + 1
  let s1 := { s with lastTick := lt }
  (List.range timerLevel).reverse.foldl
    (fun st i => if lt % 2 ^ i = 0 then trigger nowMs i st else st) s1

/-- Events driving a `Dispatcher`: the run loop dequeues and processes
one op (`procOp`) or handles one tick (`tick`); producers enqueue ops
(`enqOp`) and `CancelTimer` additionally stores the cancel mark first
(`mark`); the consumer reads one timer off `ChanTimer` (`consume`). -/
inductive DispEv where
  | procOp (now : Int)
  | tick (now : Int)
  | enqOp (t : DispatcherTimer)
  | mark (id : Int)
  | consume
deriving DecidableEq, Repr

/-- Small-step transition of the dispatcher and its environment.  Once
`doOp` returns `false` the run loop has exited (`stopped`), after which
no further ops or ticks are processed. -/
def dispStep (s : DispState) (e : DispEv) : DispState :=
  match e with
  | .procOp now =>
    if s.stopped then s
    else
      match s.opQueue with
      | [] => s
      | t :: rest =>
        let r := doOp now { s with opQueue := rest } t
        if r.2 then r.1 else { r.1 with stopped := true }
  | .tick now => if s.stopped then s else tickOnce now s
  | .enqOp t => { s with opQueue := s.opQueue ++ [t] }
  | .mark id => { s with cancelled := addCancel s.cancelled id }
  | .consume => { s with chanLen := s.chanLen - 1 }

/-- Run a sequence of events. -/
def dispRun (s : DispState) (evs : List DispEv) : DispState :=
  evs.foldl dispStep s

/-- An empty dispatcher with the given outbound-channel capacity
(`NewDispatcher`). -/
def newDispatcher (cap : Nat) : DispState :=
  { slots := List.replicate timerLevel []
    cancelled := []
    opQueue := []
    chanLen := 0
    chanCap := cap
    firedLog := []
    lastTick := 0
    stopped := false }

/-- The effect of `Dispatcher.CancelTimer(id)` on the environment side:
store the cancel mark immediately, then enqueue the cancel op. -/
def cancelTimerEvs (id : Int) : List DispEv :=
  [.mark id, .enqOp { id := id, endTs := 0, hasCb := false }]

/-- The op enqueued by `Dispatcher.NewTimer(id, endTs, cb)` for a nonzero
id (the callback is non-nil). -/
def createOp (id endTs : Int) : DispatcherTimer :=
  { id := id, endTs := endTs, hasCb := true }

/-- The helper `dispDeleteGo` changes only `slots` and `cancelled`; in particular
the `stopped` flag is untouched. -/
theorem dispDeleteGo_stopped (s : DispState) (id : Int) :
    ∀ ls : List Nat, ((dispDeleteGo s id ls).1).stopped = s.stopped
  | [] => rfl
  | i :: rest => by
    unfold dispDeleteGo
    cases slotFind (s.slots.getD i []) id with
    | some v => rfl
    | none => exact dispDeleteGo_stopped s id rest

/-- C1: After `Stop()` is invoked, the sentinel op `«id:0, endTs:0»` is
claimed to make the dispatcher task exit its run loop.  In the source,
`doOp` tests `t.endTs == 0` (the cancel branch) before `t.id == 0` (the
stop branch), so the sentinel that `Stop()` actually sends is processed
as a cancellation of timer id 0 and `doOp` returns `true`: the run loop
continues and is never exited by `Stop()`. -/
theorem stop_sentinel_does_not_exit_run_loop (now : Int) (s : DispState)
    (h : s.stopped = false) :
    (doOp now s stopSentinel).2 = true ∧
    (dispStep { s with opQueue := stopSentinel :: s.opQueue } (.procOp now)).stopped = false := by
  constructor
  · rfl
  · simp [dispStep, h, doOp, stopSentinel, dispDelete, dispDeleteGo_stopped]

/-- Witness for C1 at a concrete state: a freshly created dispatcher
processing the `Stop()` sentinel keeps running. -/
theorem stop_sentinel_does_not_exit_run_loop_witness :
    (doOp 0 (newDispatcher 10000) stopSentinel).2 = true ∧
    (dispStep { newDispatcher 10000 with
                  opQueue := stopSentinel :: (newDispatcher 10000).opQueue }
        (.procOp 0)).stopped = false :=
  stop_sentinel_does_not_exit_run_loop 0 (newDispatcher 10000) rfl

/-- Removing an id that is not in the cancelled set is a no-op. -/
theorem eraseCancel_not_mem (c : List Int) (id : Int) (h : id ∉ c) :
    eraseCancel c id = c := by
  refine List.filter_eq_self.mpr ?_
  intro a ha
  simp only [bne_iff_ne, ne_eq]
  rintro rfl
  exact h ha

/-- The producer-side events of the failing interleaving for claim C4:
create the id at endTs 50, cancel it, create it again at endTs 60,
cancel it again — each `CancelTimer` storing its mark then enqueueing
its cancel op, with the dispatcher not yet draining. -/
def cancelTimerRace (id : Int) : List DispEv :=
  [DispEv.enqOp (createOp id 50)] ++ cancelTimerEvs id ++
    [DispEv.enqOp (createOp id 60)] ++ cancelTimerEvs id

/-- C4 (code bug): the source intends a cancelled id never to fire
(cancelled-set comments, spec §4.2/§5), but `Dispatcher.delete` also
removes the id from `canceledTimers` on every path.  Consequently a stale
cancel op still sitting in the op queue erases the mark stored by a later
`CancelTimer` call, and a re-created timer with the same id is delivered
even though its `CancelTimer` returned long before its firing window.
Concrete interleaving for id 7: `NewTimer(7, endTs 50)`; `CancelTimer(7)`;
`NewTimer(7, endTs 60)`; `CancelTimer(7)` — all four ops enqueued and both
cancels returned before the dispatcher drains the queue; draining then
happens at `now = 100`: the first create is ignored (id marked), the first
cancel clears the mark, the second create is therefore placed while
unmarked and, being due, is delivered on `ChanTimer`; the final cancel op
arrives too late.  The state below is exactly the post-`CancelTimer`
state (id 7 marked, nothing delivered), and three op-processing steps
deliver id 7. -/
theorem cancelled_timer_delivered_after_requeue :
    (7 : Int) ∈ (dispRun (newDispatcher 10000) (cancelTimerRace 7)).cancelled ∧
    (dispRun (newDispatcher 10000) (cancelTimerRace 7)).firedLog = [] ∧
    (dispRun (dispRun (newDispatcher 10000) (cancelTimerRace 7))
        [DispEv.procOp 100, DispEv.procOp 100, DispEv.procOp 100]).firedLog = [7] := by
  refine ⟨by decide, by decide, by decide⟩

/-- C9: processing a CREATE op for an already-due timer (`doOp` create
branch followed by `place` with `endTs - now ≤ 0`): with free space on
the outbound channel the timer is delivered at once; with the channel
full, `place` returns with the state unchanged — the timer is stored in
no wheel level and is never delivered or retried.  By contrast, the
level-0 firing path in `trigger` removes a due timer only when the
non-blocking send succeeds, so on a full channel the slot entry stays
for the next tick. -/
theorem due_create_full_channel_discards (s : DispState) (t : DispatcherTimer) (now : Int)
    (hcb : t.hasCb = true) (hend : t.endTs ≠ 0) (hid : t.id ≠ 0)
    (hnc : t.id ∉ s.cancelled) (hdue : t.endTs ≤ now) :
    (s.chanLen < s.chanCap →
      doOp now s t =
        ({ s with chanLen := s.chanLen + 1, firedLog := s.firedLog ++ [t.id] }, true)) ∧
    (¬ s.chanLen < s.chanCap → doOp now s t = (s, true)) ∧
    (∀ u : DispatcherTimer, u.id ∉ s.cancelled → u.endTs - now < 2 ^ (0 : Nat) * timerTick →
      now ≥ u.endTs → ¬ s.chanLen < s.chanCap → triggerStep now 0 s u = s) := by
  have hply : t.endTs - now ≤ 0 := by omega
  refine ⟨?_, ?_, ?_⟩
  · intro hsp
    simp [doOp, hend, hnc, hid, hcb, eraseCancel_not_mem s.cancelled t.id hnc, place, hply, hsp]
  · intro hsp
    simp [doOp, hend, hnc, hid, hcb, eraseCancel_not_mem s.cancelled t.id hnc, place, hply, hsp]
  · intro u hu hlt hge hsp
    simp [triggerStep, hu, hlt, hge, hsp]

/-- Witness for C9: a concrete due timer against a full one-slot channel
is discarded entirely, while a slot-resident one survives the trigger. -/
theorem due_create_full_channel_discards_witness :
    doOp 100 { newDispatcher 1 with chanLen := 1 } (createOp 7 60) =
      ({ newDispatcher 1 with chanLen := 1 }, true) ∧
    triggerStep 100 0 { newDispatcher 1 with chanLen := 1 } (createOp 7 60) =
      { newDispatcher 1 with chanLen := 1 } := by
  have h := due_create_full_channel_discards { newDispatcher 1 with chanLen := 1 }
    (createOp 7 60) 100 (by decide) (by decide) (by decide) (by decide) (by decide)
  exact ⟨h.2.1 (by decide), h.2.2 (createOp 7 60) (by decide) (by decide) (by decide) (by decide)⟩

/-! ## Timer manager (src `timermgr` manager file) -/

/-- Go const `PctBase = 10000`. -/
def PctBase : Int := 10000

/-- Go struct `Timer` of the manager (metadata kept as an association
list). -/
structure MTimer where
  id : Int
  kind : String
  startTs : Int
  endTs : Int
  isTicker : Bool
  metadata : List (String × String)
deriving DecidableEq, Repr

/-- State of a `TimerMgr`: the managed-timer map, the set of kinds with a
registered handler (handler bodies are not inspected by any claim; only their
presence is tested by the source), and the cumulative list of ops this
manager has sent to its dispatcher (`NewTimer`, `UpdateTimer`,
`CancelTimer`). -/
structure TimerMgrSt where
  timers : List (Int × MTimer)
  handlers : List String
  dispatcherOps : List DispatcherTimer
deriving DecidableEq, Repr

/-- Go `TimerMgr.getTimer`: map lookup. -/
def lookupTimer (st : TimerMgrSt) (id : Int) : Option MTimer :=
  (st.timers.find? (fun p => p.1 == id)).map (fun p => p.2)

/-- Go `TimerMgr.setTimer`: map assignment. -/
def setTimer (st : TimerMgrSt) (id : Int) (t : MTimer) : TimerMgrSt :=
  { st with timers := (id, t) :: st.timers.filter (fun p => p.1 != id) }

/-- Go `TimerMgr.CancelTimer`: reject id 0, otherwise forward the cancel
op to the dispatcher and delete the managed record. -/
def mgrCancelTimer (st : TimerMgrSt) (id : Int) : TimerMgrSt :=
  if id = 0 then st
  else { st with dispatcherOps := st.dispatcherOps ++ [{ id := id, endTs := 0, hasCb := false }],
                 timers := st.timers.filter (fun p => p.1 != id) }

/-- The periodic re-arm inside `TimerMgr.timerCommonCb`'s deferred block:
`oldEndTs := endTs; endTs += endTs - startTs; startTs = oldEndTs` (both
right-hand sides read the pre-update fields). -/
def rearm (t : MTimer) : MTimer :=
  { t with endTs := t.endTs + (t.endTs - t.startTs), startTs := t.endTs }

/-- Iterated re-arm: the timer state after `n` periodic fires. -/
def rearmIter : Nat → MTimer → MTimer
  | 0, t => t
  | n + 1, t => rearmIter n (rearm t)

/-- Go `TimerMgr.timerCommonCb` (state effect): look up the managed
timer (missing record: drop silently), look up the handler for its kind
(missing handler: only a log), invoke the handler (not modelled), then in the
deferred block either re-arm a ticker and re-schedule the same id with
the new `endTs`, or cancel a one-shot. -/
def timerCommonCb (st : TimerMgrSt) (id : Int) : TimerMgrSt :=
  match lookupTimer st id with
  | none => st
  | some t =>
    if st.handlers.contains t.kind then
      if t.isTicker then
        let t' := rearm t
        { setTimer st id t' with
            dispatcherOps := st.dispatcherOps ++ [createOp id t'.endTs] }
      else mgrCancelTimer st id
    else st

/-- Go `TimerMgr.newTimer`: refuse a kind with no registered handler by
returning id 0 and doing nothing; otherwise compute `endTs = now + duraMs`,
let the dispatcher allocate an id when 0 was passed (`freshId` stands for
`utility.NextID().Int64()`), enqueue the CREATE op and store the managed
record. -/
def newTimerM (st : TimerMgrSt) (now freshId : Int) (id duraMs : Int) (kind : String)
    (metadata : List (String × String)) (isTicker : Bool) : Int × TimerMgrSt :=
  if st.handlers.contains kind then
    let startTs := now
    let endTs := startTs + duraMs
    let tid := if id = 0 then freshId else id
    let st1 := { st with dispatcherOps := st.dispatcherOps ++ [createOp tid endTs] }
    (tid, setTimer st1 tid
      { id := tid, kind := kind, startTs := startTs, endTs := endTs,
        isTicker := isTicker, metadata := metadata })
  else (0, st)

/-- Go `TimerMgr.NewTimer`: one-shot, id allocated by the dispatcher. -/
def NewTimerM (st : TimerMgrSt) (now freshId : Int) (duraMs : Int) (kind : String)
    (metadata : List (String × String)) : Int × TimerMgrSt :=
  newTimerM st now freshId 0 duraMs kind metadata false

/-- Go `TimerMgr.NewTicker`: periodic, caller may supply the id. -/
def NewTickerM (st : TimerMgrSt) (now freshId : Int) (id duraMs : Int) (kind : String)
    (metadata : List (String × String)) : Int × TimerMgrSt :=
  newTimerM st now freshId id duraMs kind metadata true

/-- Go `TimerMgr.AccTimer`: shorten the remaining time of a managed
timer.  Kind 0 is `AccAbs`, kind 1 is `AccPct` (Go `iota`); any other
value hits the `default` branch.  Division is Go's truncating `int64`
division, i.e. `Int.div`. -/
def AccTimer (st : TimerMgrSt) (now id : Int) (mode : Int) (value : Int) :
    Except String TimerMgrSt :=
  match lookupTimer st id with
  | none => .error "acc timer failed, timer not found"
  | some t =>
    let remain := t.endTs - now
    let newRemain : Except String Int :=
      if mode = 0 then
        if value ≤ 0 then .error "acc timer failed, invalid args"
        else .ok (max 0 (remain - value))
      else if mode = 1 then
        if value ≤ 0 ∨ PctBase < value then .error "acc timer failed, invalid args"
        else .ok (Int.tdiv (remain * (PctBase - value)) PctBase)
      else .error "acc timer failed, invalid args"
    match newRemain with
    | .error e => .error e
    | .ok nr =>
      let newEndTs := now + nr
      .ok { setTimer st id { t with endTs := newEndTs } with
              dispatcherOps := st.dispatcherOps ++ [{ id := id, endTs := newEndTs, hasCb := false }] }

/-- Looking up the id just stored by `setTimer` returns the new record. -/
theorem lookupTimer_setTimer (st : TimerMgrSt) (id : Int) (t : MTimer) :
    lookupTimer (setTimer st id t) id = some t := by
  simp [lookupTimer, setTimer, List.find?]

/-- Phase formula for the iterated re-arm: starting from a window
`[S, S+P]`, after `K` fires the window is `[S+K*P, S+(K+1)*P]`. -/
theorem rearmIter_phase : ∀ (K : Nat) (u : MTimer) (S P : Int),
    u.startTs = S → u.endTs = S + P →
    (rearmIter K u).startTs = S + K * P ∧ (rearmIter K u).endTs = S + (K + 1) * P
  | 0, u, S, P, h1, h2 => by
    simp [rearmIter, h1, h2]
  | K + 1, u, S, P, h1, h2 => by
    have h := rearmIter_phase K (rearm u) (S + P) P
      (by simp only [rearm]; exact h2) (by simp only [rearm]; rw [h1, h2]; ring)
    refine ⟨?_, ?_⟩
    · rw [show rearmIter (K + 1) u = rearmIter K (rearm u) from rfl, h.1]
      push_cast
      ring
    · rw [show rearmIter (K + 1) u = rearmIter K (rearm u) from rfl, h.2]
      push_cast
      ring

/-- C5: a fired ticker whose kind has a registered handler is re-armed by
`timerCommonCb` with `startTs := old endTs` and `endTs += endTs - startTs`
(an advance of exactly the period), and the same id is re-scheduled on
the dispatcher at the new `endTs`; nothing in the re-arm reads the clock,
so iterating it from a window `[S, S+P]` gives the K-th scheduled fire
time `S + K*P` (the window after `K` fires being `[S+K*P, S+(K+1)*P]`),
independent of when the handler actually ran. -/
theorem ticker_rearm_preserves_phase (st : TimerMgrSt) (id : Int) (t : MTimer)
    (hl : lookupTimer st id = some t) (hk : st.handlers.contains t.kind = true)
    (ht : t.isTicker = true) :
    (lookupTimer (timerCommonCb st id) id = some (rearm t) ∧
      (timerCommonCb st id).dispatcherOps = st.dispatcherOps ++ [createOp id (rearm t).endTs] ∧
      (rearm t).startTs = t.endTs ∧ (rearm t).endTs = t.endTs + (t.endTs - t.startTs)) ∧
    ∀ (K : Nat) (u : MTimer) (S P : Int), u.startTs = S → u.endTs = S + P →
      (rearmIter K u).startTs = S + K * P ∧ (rearmIter K u).endTs = S + (K + 1) * P := by
  have hcb : timerCommonCb st id =
      { setTimer st id (rearm t) with
          dispatcherOps := st.dispatcherOps ++ [createOp id (rearm t).endTs] } := by
    unfold timerCommonCb
    rw [hl]
    have hk' : t.kind ∈ st.handlers := by simpa using hk
    simp [hk', ht]
  refine ⟨⟨?_, ?_, rfl, rfl⟩, fun K u S P h1 h2 => rearmIter_phase K u S P h1 h2⟩
  · rw [hcb]
    simp [lookupTimer, setTimer, List.find?]
  · rw [hcb]

/-- Witness for C5 at a concrete ticker: kind "k" registered, window
`[100, 160]` (period 60); after the fire the stored record is the re-armed
timer with window `[160, 220]`, and three iterated fires give `[280, 340]`. -/
theorem ticker_rearm_preserves_phase_witness :
    let t : MTimer :=
      { id := 9, kind := "k", startTs := 100, endTs := 160, isTicker := true, metadata := [] }
    let st : TimerMgrSt := { timers := [(9, t)], handlers := ["k"], dispatcherOps := [] }
    lookupTimer (timerCommonCb st 9) 9 = some (rearm t) ∧
      (rearmIter 3 t).startTs = 280 ∧ (rearmIter 3 t).endTs = 340 := by
  intro t st
  have h := ticker_rearm_preserves_phase st 9 t (by decide) (by decide) (by decide)
  exact ⟨h.1.1, (h.2 3 t 100 60 rfl rfl).1, (h.2 3 t 100 60 rfl rfl).2⟩

/-- C6: behaviour of `TimerMgr.AccTimer` for a present timer and each
argument class.  Mode 0 (`AccAbs`) with `value > 0` sets the remaining
time to `max 0 (remaining - value)`; mode 1 (`AccPct`) with
`value ∈ (0, PctBase]` sets it to `remaining * (PctBase - value) / PctBase`
(truncating division); `AccAbs` with `value ≤ 0`, `AccPct` with a value
outside `(0, PctBase]`, and any other mode return an error before any
mutation, so the managed record and the dispatcher op list are left
unchanged (an error in this model carries no new state); a missing id
returns an error. -/
theorem accTimer_spec (st : TimerMgrSt) (now id mode value : Int) :
    (lookupTimer st id = none →
      AccTimer st now id mode value = .error "acc timer failed, timer not found") ∧
    ∀ t, lookupTimer st id = some t →
      ((mode = 0 → 0 < value →
        AccTimer st now id mode value =
          .ok { setTimer st id { t with endTs := now + max 0 (t.endTs - now - value) } with
                  dispatcherOps := st.dispatcherOps ++
                    [{ id := id, endTs := now + max 0 (t.endTs - now - value), hasCb := false }] }) ∧
       (mode = 0 → value ≤ 0 →
        AccTimer st now id mode value = .error "acc timer failed, invalid args") ∧
       (mode = 1 → 0 < value → value ≤ PctBase →
        AccTimer st now id mode value =
          .ok { setTimer st id
                  { t with endTs := now + Int.tdiv ((t.endTs - now) * (PctBase - value)) PctBase } with
                  dispatcherOps := st.dispatcherOps ++
                    [{ id := id,
                       endTs := now + Int.tdiv ((t.endTs - now) * (PctBase - value)) PctBase,
                       hasCb := false }] }) ∧
       (mode = 1 → value ≤ 0 ∨ PctBase < value →
        AccTimer st now id mode value = .error "acc timer failed, invalid args") ∧
       (mode ≠ 0 → mode ≠ 1 →
        AccTimer st now id mode value = .error "acc timer failed, invalid args")) := by
  constructor
  · intro hn
    simp [AccTimer, hn]
  · intro t hlt
    refine ⟨?_, ?_, ?_, ?_, ?_⟩
    · rintro rfl hv
      simp [AccTimer, hlt, show ¬ value ≤ 0 by omega]
    · rintro rfl hv
      simp [AccTimer, hlt, hv]
    · rintro rfl hv1 hv2
      simp [AccTimer, hlt, show ¬ value ≤ 0 by omega, show ¬ PctBase < value by omega]
    · rintro rfl hv
      rcases hv with hv | hv
      · simp [AccTimer, hlt, hv]
      · simp [AccTimer, hlt, hv, show (1 : Int) ≠ 0 by omega]
    · intro h0 h1
      simp [AccTimer, hlt, h0, h1]

/-- Witness for C6 at concrete inputs: timer 5 with `endTs = 1000` at
`now = 200` (remaining 800).  `AccAbs 300` leaves `endTs = 700`;
`AccAbs 900` clamps to `endTs = 200`; `AccPct 5000` halves the remainder
to `endTs = 600`; `AccAbs 0`, `AccPct 10001` and mode 7 err; id 6 errs. -/
theorem accTimer_spec_witness :
    let t : MTimer :=
      { id := 5, kind := "k", startTs := 0, endTs := 1000, isTicker := false, metadata := [] }
    let st : TimerMgrSt := { timers := [(5, t)], handlers := ["k"], dispatcherOps := [] }
    (∃ st1, AccTimer st 200 5 0 300 = .ok st1 ∧ lookupTimer st1 5 = some { t with endTs := 700 }) ∧
    (∃ st2, AccTimer st 200 5 0 900 = .ok st2 ∧ lookupTimer st2 5 = some { t with endTs := 200 }) ∧
    (∃ st3, AccTimer st 200 5 1 5000 = .ok st3 ∧ lookupTimer st3 5 = some { t with endTs := 600 }) ∧
    AccTimer st 200 5 0 0 = .error "acc timer failed, invalid args" ∧
    AccTimer st 200 5 1 10001 = .error "acc timer failed, invalid args" ∧
    AccTimer st 200 5 7 1 = .error "acc timer failed, invalid args" ∧
    AccTimer st 200 6 0 300 = .error "acc timer failed, timer not found" := by
  intro t st
  have h := accTimer_spec st 200 5 0 300
  have h2 := accTimer_spec st 200 5 0 900
  have h3 := accTimer_spec st 200 5 1 5000
  have h4 := accTimer_spec st 200 5 0 0
  have h5 := accTimer_spec st 200 5 1 10001
  have h6 := accTimer_spec st 200 5 7 1
  have h7 := accTimer_spec st 200 6 0 300
  have hlt : lookupTimer st 5 = some t := by decide
  refine ⟨⟨_, (h.2 t hlt).1 rfl (by decide), by decide⟩,
          ⟨_, (h2.2 t hlt).1 rfl (by decide), by decide⟩,
          ⟨_, (h3.2 t hlt).2.2.1 rfl (by decide) (by decide), by decide⟩,
          (h4.2 t hlt).2.1 rfl (by decide),
          (h5.2 t hlt).2.2.2.1 rfl (by decide),
          (h6.2 t hlt).2.2.2.2 (by decide) (by decide),
          h7.1 (by decide)⟩

/-- C10: `TimerMgr.newTimer` refuses a kind that has no handler
registered via `RegisterTimer`: both `NewTimer` and `NewTicker` then
return id 0 and create nothing — the managed-timer map and the stream of
ops sent to the dispatcher are exactly unchanged. -/
theorem newTimer_unregistered_kind_returns_zero (st : TimerMgrSt)
    (now freshId duraMs id : Int) (kind : String) (meta : List (String × String))
    (h : st.handlers.contains kind = false) :
    NewTimerM st now freshId duraMs kind meta = (0, st) ∧
    NewTickerM st now freshId id duraMs kind meta = (0, st) := by
  have h' : kind ∉ st.handlers := by simpa using h
  constructor <;> simp [NewTimerM, NewTickerM, newTimerM, h']

/-- Witness for C10: a manager with no registered kinds refuses kind
"gone" from both entry points. -/
theorem newTimer_unregistered_kind_returns_zero_witness :
    NewTimerM { timers := [], handlers := [], dispatcherOps := [] } 50 77 1000 "gone" [] =
      (0, { timers := [], handlers := [], dispatcherOps := [] }) ∧
    NewTickerM { timers := [], handlers := [], dispatcherOps := [] } 50 77 3 1000 "gone" [] =
      (0, { timers := [], handlers := [], dispatcherOps := [] }) :=
  newTimer_unregistered_kind_returns_zero
    { timers := [], handlers := [], dispatcherOps := [] } 50 77 1000 3 "gone" [] (by decide)

/-! ## Module lifecycle (src/app/module.go, src/app/app.go) -/

/-- Go const `defaultShutdownTimeout = 30 * time.Second`, in ms. -/
def defaultShutdownTimeoutMs : Int := 30 * 1000

/-- Observable steps of `App.shutdownModule` and `App.stop`. -/
inductive ModEvent where
  | signalClose (name : String)
  | signalCloseFullWarn (name : String)
  | waitDone (name : String)
  | waitTimeoutLogged (name : String) (timeoutMs : Int)
  | destroy (name : String)
deriving DecidableEq, Repr

/-- Go `App.shutdownModule`: send the close signal (warn when the
buffered channel is already full, `sigOk = false`), wait for the module
task either until it finishes (`finished = true`) or until
`defaultShutdownTimeout` elapses (logged), then always call the destroy
hook. -/
def shutdownModule (name : String) (sigOk finished : Bool) : List ModEvent :=
  (if sigOk then [ModEvent.signalClose name] else [ModEvent.signalCloseFullWarn name]) ++
  (if finished then [ModEvent.waitDone name]
   else [ModEvent.waitTimeoutLogged name defaultShutdownTimeoutMs]) ++
  [ModEvent.destroy name]

/-- Go interface `IModule` as far as the lifecycle claims observe it:
a name and whether `OnInit` succeeds.  The interface carries no priority
field. -/
structure GoModule where
  name : String
  initOk : Bool
deriving DecidableEq, Repr

/-- Init phase of `App.start`: `OnInit` is called on the modules in the
order they were passed to `Run`; the first failure aborts the loop. -/
def appInitOrder : List GoModule → List String
  | [] => []
  | m :: rest => if m.initOk then m.name :: appInitOrder rest else [m.name]

/-- Goroutine-start phase of `App.start`: reached only when every init
succeeded, and again in the given order. -/
def appRunOrder (mods : List GoModule) : List String :=
  if mods.all (fun m => m.initOk) then mods.map (fun m => m.name) else []

/-- Shutdown loop body of `App.stop` over a list of wrappers. -/
def stopList (sigOk finished : String → Bool) : List GoModule → List ModEvent
  | [] => []
  | m :: rest => shutdownModule m.name (sigOk m.name) (finished m.name) ++ stopList sigOk finished rest

/-- Go `App.stop`: iterate the static modules from the last index down to
0, running `shutdownModule` on each. -/
def appStop (mods : List GoModule) (sigOk finished : String → Bool) : List ModEvent :=
  stopList sigOk finished mods.reverse

/-- The destroy hooks invoked by a trace, in order. -/
def destroyedNames (evs : List ModEvent) : List String :=
  evs.filterMap (fun e => match e with | .destroy n => some n | _ => none)

/-- Modelled from the spec: a module as the spec describes it, with a
priority, and the startup order the spec prescribes — a sort by
`(priority asc, name asc)` (insertion sort; the claims below evaluate it
only on modules with distinct keys).  This definition exists solely to be
compared against the order the code actually uses. -/
structure SpecModule where
  name : String
  priority : Nat
deriving DecidableEq, Repr

/-- Lexicographic comparison of code-point lists (name ascending). -/
def codeLe : List Nat → List Nat → Bool
  | [], _ => true
  | _ :: _, [] => false
  | x :: xs, y :: ys => if x < y then true else if y < x then false else codeLe xs ys

/-- Modelled from the spec: the `(priority asc, name asc)` comparison,
with name order as code-point order. -/
def specModuleLe (a b : SpecModule) : Bool :=
  a.priority < b.priority ||
    (a.priority == b.priority && codeLe (a.name.data.map Char.toNat) (b.name.data.map Char.toNat))

/-- Modelled from the spec: sorted insertion. -/
def specInsert (m : SpecModule) : List SpecModule → List SpecModule
  | [] => [m]
  | x :: xs => if specModuleLe x m then x :: specInsert m xs else m :: x :: xs

/-- Modelled from the spec: module names in `(priority asc, name asc)`
sorted order. -/
def specSortedOrder (l : List SpecModule) : List String :=
  (l.foldr specInsert []).map (fun m => m.name)

/-- Counterexample to C2 as stated: the shutdown wait timeout the code
uses is `30 * time.Second` = 30000 ms, not 30 minutes (1800000 ms): on a
module that does not finish in time, the logged timeout is 30000 ms. -/
theorem shutdown_timeout_is_thirty_seconds_not_minutes :
    defaultShutdownTimeoutMs = 30000 ∧ defaultShutdownTimeoutMs ≠ 30 * 60 * 1000 ∧
    shutdownModule "m" true false =
      [ModEvent.signalClose "m", ModEvent.waitTimeoutLogged "m" 30000, ModEvent.destroy "m"] := by
  refine ⟨rfl, by decide, rfl⟩

/-- C2 (amended): during shutdown the lifecycle waits for each static
module's task with a default timeout of 30 seconds; when the timeout is
exceeded this is logged (the `waitTimeoutLogged` event, carrying the
30000 ms timeout) and the module's destroy hook still runs afterwards —
the trace always ends with `destroy`. -/
theorem shutdown_waits_then_always_destroys (name : String) (sigOk finished : Bool) :
    defaultShutdownTimeoutMs = 30000 ∧
    (shutdownModule name sigOk finished).getLast? = some (ModEvent.destroy name) ∧
    (finished = false →
      ModEvent.waitTimeoutLogged name defaultShutdownTimeoutMs ∈ shutdownModule name sigOk finished) := by
  refine ⟨rfl, ?_, ?_⟩
  · cases sigOk <;> cases finished <;> rfl
  · rintro rfl
    cases sigOk <;> simp [shutdownModule]

/-- Witness for C2 (amended) on a module that times out. -/
theorem shutdown_waits_then_always_destroys_witness :
    (shutdownModule "w" false false).getLast? = some (ModEvent.destroy "w") ∧
    ModEvent.waitTimeoutLogged "w" defaultShutdownTimeoutMs ∈ shutdownModule "w" false false :=
  ⟨(shutdown_waits_then_always_destroys "w" false false).2.1,
   (shutdown_waits_then_always_destroys "w" false false).2.2 rfl⟩

/-- Counterexample to C3 as stated: `IModule` has no priority and
`App.start` registers, initializes and starts the modules exactly in the
order they were passed to `Run` — for modules named "b", "a" (in that
order) the code's init order is «b, a», while the spec's
`(priority asc, name asc)` sort (any equal priorities, here 0) yields
«a, b». -/
theorem startup_order_is_argument_order_not_sorted :
    appInitOrder [{ name := "b", initOk := true }, { name := "a", initOk := true }] = ["b", "a"] ∧
    appRunOrder [{ name := "b", initOk := true }, { name := "a", initOk := true }] = ["b", "a"] ∧
    specSortedOrder [{ name := "b", priority := 0 }, { name := "a", priority := 0 }] = ["a", "b"] ∧
    (["b", "a"] : List String) ≠ ["a", "b"] := by
  refine ⟨rfl, rfl, by decide, by decide⟩

/-- Destroy order of the whole shutdown loop: one destroy per module, in
list order of the reversed module list. -/
theorem destroyedNames_stopList (sigOk finished : String → Bool) :
    ∀ l : List GoModule,
      destroyedNames (stopList sigOk finished l) = l.map (fun m => m.name)
  | [] => rfl
  | m :: rest => by
    have ih := destroyedNames_stopList sigOk finished rest
    simp only [stopList, destroyedNames, List.filterMap_append] at *
    rw [ih]
    cases sigOk m.name <;> cases finished m.name <;> rfl

/-- C3 (amended): the modules passed to `Run` are initialized and started
in exactly the order they were given (no sorting occurs; `IModule` has no
priority), and at shutdown every static module's destroy hook runs in the
exact reverse of that startup order. -/
theorem startup_order_and_reverse_destroy (mods : List GoModule)
    (sigOk finished : String → Bool) (hinit : mods.all (fun m => m.initOk) = true) :
    appInitOrder mods = mods.map (fun m => m.name) ∧
    appRunOrder mods = mods.map (fun m => m.name) ∧
    destroyedNames (appStop mods sigOk finished) = (mods.map (fun m => m.name)).reverse := by
  refine ⟨?_, ?_, ?_⟩
  · induction mods with
    | nil => rfl
    | cons m rest ih =>
      simp only [List.all_cons, Bool.and_eq_true] at hinit
      simp [appInitOrder, hinit.1, ih hinit.2]
  · simp [appRunOrder, hinit]
  · rw [appStop, destroyedNames_stopList, List.map_reverse]

/-- Witness for C3 (amended) on two concretely named modules. -/
theorem startup_order_and_reverse_destroy_witness :
    appInitOrder [{ name := "x", initOk := true }, { name := "y", initOk := true }] = ["x", "y"] ∧
    destroyedNames
        (appStop [{ name := "x", initOk := true }, { name := "y", initOk := true }]
          (fun _ => true) (fun _ => true)) = ["y", "x"] := by
  have h := startup_order_and_reverse_destroy
    [{ name := "x", initOk := true }, { name := "y", initOk := true }]
    (fun _ => true) (fun _ => true) (by decide)
  exact ⟨h.1, h.2.2⟩

/-! ## ChanRPC (src/app/chanrpc/server.go, callinfo file, client file) -/

/-- The chanrpc error sentinels used by the claims (src `errors`). -/
inductive ChanErr where
  | serverNil
  | serverClosed
  | clientClosed
  | invalidMsgType
  | callTimeout
  | retTimeout
  | callChannelNil
  | callInfoNil
  | channelFull
deriving DecidableEq, Repr

/-- Go struct `RetInfo`: the reply payload or an error (the private
`callback` field is not read by any claim). -/
structure RetInfoM where
  ack : Option Int
  err : Option ChanErr
deriving DecidableEq, Repr

/-- Answer-side state of one `CallInfo`: the one-shot `hasRet` flag,
whether `chanRet` is non-nil, the replies actually delivered to
`chanRet`, and how many warn logs the answer paths emitted. -/
structure CallInfoSt where
  hasRet : Bool
  chanRetSome : Bool
  delivered : List RetInfoM
  warnCount : Nat
deriving DecidableEq, Repr

/-- A fresh `CallInfo` before any answer. -/
def freshCallInfo (chanRetSome : Bool) : CallInfoSt :=
  { hasRet := false, chanRetSome := chanRetSome, delivered := [], warnCount := 0 }

/-- One call of `Ret` or `RetWithError`, with the payload and whether the
5-second send in the private `ret` would succeed (`sendOk = false` models
`ErrRetTimeout` on a stuck reply channel). -/
inductive AnswerOp where
  | ret (ack : Int) (sendOk : Bool)
  | retWithError (ack : Int) (e : ChanErr) (sendOk : Bool)
deriving DecidableEq, Repr

/-- Go `CallInfo.ret`: deliver the reply to `chanRet` unless it is nil;
a failed (timed-out) send returns an error and delivers nothing. -/
def ciRet (st : CallInfoSt) (ri : RetInfoM) (sendOk : Bool) : CallInfoSt × Bool :=
  if st.chanRetSome = false then (st, false)
  else if sendOk then ({ st with delivered := st.delivered ++ [ri] }, false)
  else (st, true)

/-- Go `CallInfo.Ret` / `CallInfo.RetWithError`: compare-and-swap the
one-shot `hasRet`; when it was already set, only warn; otherwise deliver
through `ret`, warning if the delivery itself errs. -/
def ciAnswer (st : CallInfoSt) : AnswerOp → CallInfoSt
  | .ret a sendOk =>
    if st.hasRet then { st with warnCount := st.warnCount + 1 }
    else
      let r := ciRet { st with hasRet := true } { ack := some a, err := none } sendOk
      if r.2 then { r.1 with warnCount := r.1.warnCount + 1 } else r.1
  | .retWithError a e sendOk =>
    if st.hasRet then { st with warnCount := st.warnCount + 1 }
    else
      let r := ciRet { st with hasRet := true } { ack := some a, err := some e } sendOk
      if r.2 then { r.1 with warnCount := r.1.warnCount + 1 } else r.1

/-- A sequence of answer attempts against one `CallInfo`. -/
def ciAnswers (st : CallInfoSt) (ops : List AnswerOp) : CallInfoSt :=
  ops.foldl ciAnswer st

/-- Invariant of the answer paths: before the flag is set nothing was
delivered, and at most one reply is ever delivered. -/
theorem ciAnswer_inv (st : CallInfoSt) (op : AnswerOp)
    (h1 : st.hasRet = false → st.delivered = []) (h2 : st.delivered.length ≤ 1) :
    ((ciAnswer st op).hasRet = false → (ciAnswer st op).delivered = []) ∧
      (ciAnswer st op).delivered.length ≤ 1 := by
  cases op with
  | ret a sendOk =>
    by_cases hr : st.hasRet
    · simp [ciAnswer, hr, h2]
    · have hd := h1 (by simpa using hr)
      cases hcs : st.chanRetSome <;> cases sendOk <;>
        simp [ciAnswer, ciRet, hr, hcs, hd]
  | retWithError a e sendOk =>
    by_cases hr : st.hasRet
    · simp [ciAnswer, hr, h2]
    · have hd := h1 (by simpa using hr)
      cases hcs : st.chanRetSome <;> cases sendOk <;>
        simp [ciAnswer, ciRet, hr, hcs, hd]

/-- The invariant holds along any sequence of answer attempts. -/
theorem ciAnswers_inv (ops : List AnswerOp) : ∀ (st : CallInfoSt),
    (st.hasRet = false → st.delivered = []) → st.delivered.length ≤ 1 →
    (ciAnswers st ops).delivered.length ≤ 1 := by
  induction ops with
  | nil => intro st _ h2; exact h2
  | cons op rest ih =>
    intro st h1 h2
    have h := ciAnswer_inv st op h1 h2
    exact ih (ciAnswer st op) h.1 h.2

/-- C7: for every `CallInfo`, at most one `RetInfo` is ever delivered to
its reply channel — any sequence of `Ret`/`RetWithError` attempts against
a fresh `CallInfo` delivers at most one reply, the first attempt winning
the one-shot `hasRet` compare-and-swap — and once the flag is set every
further attempt leaves the delivered replies untouched and only adds a
warn log. -/
theorem at_most_one_answer (chanRetSome : Bool) (ops : List AnswerOp)
    (st : CallInfoSt) (hst : st.hasRet = true) (op : AnswerOp) :
    (ciAnswers (freshCallInfo chanRetSome) ops).delivered.length ≤ 1 ∧
    (ciAnswer st op).delivered = st.delivered ∧
    (ciAnswer st op).warnCount = st.warnCount + 1 := by
  refine ⟨ciAnswers_inv ops (freshCallInfo chanRetSome) (fun _ => rfl) (by simp [freshCallInfo]),
          ?_, ?_⟩ <;> cases op <;> simp [ciAnswer, hst]

/-- Witness for C7: two successful `Ret` attempts then a `RetWithError`
deliver exactly one reply, and a second attempt on an answered `CallInfo`
only warns. -/
theorem at_most_one_answer_witness :
    (ciAnswers (freshCallInfo true)
        [AnswerOp.ret 4 true, AnswerOp.ret 5 true,
         AnswerOp.retWithError 6 ChanErr.serverClosed true]).delivered.length ≤ 1 ∧
    (ciAnswer { hasRet := true, chanRetSome := true, delivered := [{ ack := some 4, err := none }],
                warnCount := 0 } (AnswerOp.ret 5 true)).delivered =
      [{ ack := some 4, err := none }] := by
  have h := at_most_one_answer true
    [AnswerOp.ret 4 true, AnswerOp.ret 5 true, AnswerOp.retWithError 6 ChanErr.serverClosed true]
    { hasRet := true, chanRetSome := true, delivered := [{ ack := some 4, err := none }],
      warnCount := 0 } rfl (AnswerOp.ret 5 true)
  exact ⟨h.1, h.2.1⟩

/-- Go const: the blocking-enqueue deadline of `Client.call`
(`time.NewTimer(5 * time.Second)`), in ms. -/
def callEnqueueTimeoutMs : Int := 5000

/-- Go `Client.check`: validate server, server/client closed flags and
the message id (`MessageID(request) <= 0` is `InvalidMsgType`; ids are
`uint32`, modelled as `Nat`). -/
def clientCheck (serverPresent serverClosed clientClosed : Bool) (messageID : Nat) :
    Except ChanErr Nat :=
  if serverPresent = false then .error .serverNil
  else if serverClosed then .error .serverClosed
  else if clientClosed then .error .clientClosed
  else if messageID = 0 then .error .invalidMsgType
  else .ok messageID

/-- Go `Client.call` in blocking mode: nil-channel and nil-`CallInfo`
guards, then a send that blocks until space appears or the 5 s timer
fires (`spaceWithin5s = false` yields `ErrCallTimeout`). -/
def clientEnqueueBlock (chanPresent ciPresent spaceWithin5s : Bool) : Option ChanErr :=
  if chanPresent = false then some .callChannelNil
  else if ciPresent = false then some .callInfoNil
  else if spaceWithin5s then none
  else some .callTimeout

/-- The `CallInfo` built by `Client.Call`: the message id, a reply
channel freshly made with capacity 1 (`make(chan *RetInfo, 1)`), no
callback. -/
structure BuiltCallInfo where
  messageID : Nat
  chanRetCap : Nat
  hasCallback : Bool
deriving DecidableEq, Repr

/-- Go `Client.Call`: run `check`; on failure return `RetInfo«Err: err»`.
Otherwise build the `CallInfo` with a fresh capacity-one private reply
channel and enqueue it in blocking mode; an enqueue timeout is returned
as `RetInfo«Err: ErrCallTimeout»`; on success block on the private
channel and return the single reply read from it (`reply`). -/
def clientCall (serverPresent serverClosed clientClosed : Bool) (messageID : Nat)
    (spaceWithin5s : Bool) (reply : RetInfoM) : RetInfoM × Option BuiltCallInfo :=
  match clientCheck serverPresent serverClosed clientClosed messageID with
  | .error e => ({ ack := none, err := some e }, none)
  | .ok mid =>
    let ci : BuiltCallInfo := { messageID := mid, chanRetCap := 1, hasCallback := false }
    match clientEnqueueBlock true true spaceWithin5s with
    | some e => ({ ack := none, err := some e }, some ci)
    | none => (reply, some ci)

/-- C8: when the argument checks pass, `Client.Call` builds a `CallInfo`
carrying a fresh private reply channel of capacity one and enqueues it,
blocking on a full server queue for at most the 5-second deadline; when
no space appears within the deadline it returns a `RetInfo` whose `Err`
is `ErrCallTimeout`; when the enqueue succeeds it returns exactly the one
reply read from that private channel. -/
theorem client_call_spec (serverPresent serverClosed clientClosed : Bool)
    (messageID : Nat) (spaceWithin5s : Bool) (reply : RetInfoM)
    (hsp : serverPresent = true) (hsc : serverClosed = false) (hcc : clientClosed = false)
    (hmid : messageID ≠ 0) :
    callEnqueueTimeoutMs = 5000 ∧
    (clientCall serverPresent serverClosed clientClosed messageID spaceWithin5s reply).2 =
      some { messageID := messageID, chanRetCap := 1, hasCallback := false } ∧
    (spaceWithin5s = false →
      (clientCall serverPresent serverClosed clientClosed messageID spaceWithin5s reply).1 =
        { ack := none, err := some ChanErr.callTimeout }) ∧
    (spaceWithin5s = true →
      (clientCall serverPresent serverClosed clientClosed messageID spaceWithin5s reply).1 = reply) := by
  subst hsp hsc hcc
  refine ⟨rfl, ?_, ?_, ?_⟩
  · cases spaceWithin5s <;> simp [clientCall, clientCheck, clientEnqueueBlock, hmid]
  · rintro rfl
    simp [clientCall, clientCheck, clientEnqueueBlock, hmid]
  · rintro rfl
    simp [clientCall, clientCheck, clientEnqueueBlock, hmid]

/-- Witness for C8 at concrete inputs: a full queue for 5 s yields the
call-timeout reply; an enqueued call returns the channel's single reply. -/
theorem client_call_spec_witness :
    (clientCall true false false 42 false { ack := some 7, err := none }).1 =
      { ack := none, err := some ChanErr.callTimeout } ∧
    (clientCall true false false 42 true { ack := some 7, err := none }).1 =
      { ack := some 7, err := none } ∧
    (clientCall true false false 42 true { ack := some 7, err := none }).2 =
      some { messageID := 42, chanRetCap := 1, hasCallback := false } := by
  have h1 := client_call_spec true false false 42 false { ack := some 7, err := none }
    rfl rfl rfl (by decide)
  have h2 := client_call_spec true false false 42 true { ack := some 7, err := none }
    rfl rfl rfl (by decide)
  exact ⟨h1.2.2.1 rfl, h2.2.2.2 rfl, h2.2.1⟩
